import Mathlib

/-!
Verification of the NewsKernel daily briefing pipeline
(`src/backend/daily_generator.py`) against its specification.

The script is a single linear orchestration: fetch news, compose a script
via an LLM, synthesize speech, upload audio and metadata to object storage.
We embed it as a pure function from the results of the external
collaborators (news API, LLM, TTS, storage) to the list of outbound calls
made (the trace) together with how the run ended.  External calls are
modelled as oracle results carried in `RunInput`; exception messages are
abstracted as strings.  `print` calls are progress output and are not
modelled, except for the top-level error handler's message, which the spec
makes observable ("logged with a human-readable message").
-/

namespace NewsKernel

/-- One item of the news API's `results` array.  Both fields are optional:
the script accesses `item.get('description')` (may be absent) and
`item['title']` (raises `KeyError` when absent). -/
structure NewsItem where
  title : Option String
  description : Option String
deriving DecidableEq

/-- The decoded JSON body of the news API response: the script reads
`data.get('status')` and `data.get('results', [])`. -/
structure NewsResponse where
  status : Option String
  results : Option (List NewsItem)
deriving DecidableEq

/-- The briefing metadata record written as JSON:
`{"date": datetime.now().strftime("%B %d, %Y"), "summary": script_text}`. -/
structure Metadata where
  date : String
  summary : String
deriving DecidableEq

/-- Payload of a storage upload: the audio file's bytes, or the metadata
record (serialized as UTF-8 JSON by the script; we keep the record). -/
inductive UploadBody where
  | bytes (b : String)
  | json (md : Metadata)
deriving DecidableEq

/-- An observable action of the run: an outbound call to one of the four
external services, or the top-level error handler's log line. -/
inductive Event where
  | fetchNews
  | llmCall (systemMsg userMsg model : String)
  | ttsCall (text voice : String)
  | uploadCall (bucket path contentType upsert : String) (body : UploadBody)
  | logMsg (s : String)
deriving DecidableEq

/-- How `main()` ended: fell through normally, returned early
(`return` on API error / empty article list — the process still exits 0),
or hit the top-level `except` handler, which calls `exit(1)`. -/
inductive Outcome where
  | completed
  | abortedReturn
  | abortedException
deriving DecidableEq

/-- The process exit code produced by each outcome: `exit(1)` only in the
exception handler; an early `return` from `main()` still exits 0. -/
def exitCode : Outcome → Nat
  | .completed => 0
  | .abortedReturn => 0
  | .abortedException => 1

/-- `BUCKET_NAME = "NewsKernal"` from the script's configuration block. -/
def BUCKET_NAME : String := "NewsKernal"

/-- The model identifier passed to the chat-completion call. -/
def MODEL_ID : String := "llama3-8b-8192"

/-- The fixed TTS voice identifier. -/
def VOICE_ID : String := "en-US-BrianNeural"

/-- Destination path of the audio upload. -/
def AUDIO_PATH : String := "public/latest_brief.mp3"

/-- Destination path of the metadata upload. -/
def DATA_PATH : String := "public/latest_data.json"

/-- The fixed system instruction, exactly as the Python adjacent string
literals concatenate (note the missing space before "Do not use"). -/
def systemPrompt : String :=
  "You are the voice of NewsKernal, a futuristic tech news station. " ++
  "Summarize these 5 stories into a tightly packed 120-second briefing. " ++
  "Style: Professional, fast-paced, insightful. " ++
  "Start with: 'This is NewsKernal. Here is your daily download.' " ++
  "End with: 'System update complete. This was NewsKernal.'" ++
  "Do not use emojis or markdown formatting."

/-- Python's `a or b` on optional strings: `a` unless it is `None` or the
empty string (both falsy), else `b`. -/
def pyOr (a b : Option String) : Option String :=
  match a with
  | some s => if s = "" then b else some s
  | none => b

/-- One loop iteration of the article builder:
`desc = item.get('description') or item.get('title')` followed by
`f"Headline: {item['title']}\nSummary: {desc}"`; the subscript raises
`KeyError` when the item has no title. -/
def articleLine (item : NewsItem) : Except String String :=
  match item.title with
  | none => .error "KeyError: 'title'"
  | some t =>
      .ok ("Headline: " ++ t ++ "\nSummary: " ++ (pyOr item.description item.title).getD "")

/-- The article-building loop over (at most) the first five result items;
the first `KeyError` aborts the whole run, discarding any lines built. -/
def buildLines : List NewsItem → Except String (List String)
  | [] => .ok []
  | item :: rest =>
    match articleLine item with
    | .error e => .error e
    | .ok line =>
      match buildLines rest with
      | .error e => .error e
      | .ok lines => .ok (line :: lines)

/-- The run's wall-clock date, as read by `datetime.now()`. -/
structure Date where
  year : Nat
  month : Nat
  day : Nat
deriving DecidableEq

/-- English month names, for `strftime("%B ...")`. -/
def monthNames : List String :=
  ["January", "February", "March", "April", "May", "June", "July",
   "August", "September", "October", "November", "December"]

/-- Zero-padded two-digit rendering, for `strftime("%d")`. -/
def pad2 (n : Nat) : String :=
  if n < 10 then "0" ++ toString n else toString n

/-- `datetime.now().strftime("%B %d, %Y")`: full month name, zero-padded
day, full year. -/
def strftimeBdY (d : Date) : String :=
  monthNames.getD (d.month - 1) "" ++ " " ++ pad2 d.day ++ ", " ++ toString d.year

/-- The metadata dict built by the script just before the second upload. -/
def mkMetadata (now : Date) (script : String) : Metadata :=
  { date := strftimeBdY now, summary := script }

/-- The top-level handler's log line: `print(f"❌ Critical Error: {e}")`. -/
def errLog (e : String) : Event :=
  .logMsg ("❌ Critical Error: " ++ e)

/-- Oracle results of the external collaborators for one run, plus the
wall clock.  An `Except.error` means that call raised an exception. -/
structure RunInput where
  fetch : Except String NewsResponse
  llm : Except String String
  tts : Except String String
  uploadAudioRes : Except String Unit
  uploadMetaRes : Except String Unit
  now : Date

/-- Trace up to and including the chat-completion call. -/
def evsLlm (lines : List String) : List Event :=
  [Event.fetchNews,
   Event.llmCall systemPrompt (String.intercalate "\n\n" lines) MODEL_ID]

/-- Trace up to and including the TTS call. -/
def evsTts (lines : List String) (script : String) : List Event :=
  evsLlm lines ++ [Event.ttsCall script VOICE_ID]

/-- Trace up to and including the audio upload call. -/
def evsAud (lines : List String) (script aud : String) : List Event :=
  evsTts lines script ++
    [Event.uploadCall BUCKET_NAME AUDIO_PATH "audio/mpeg" "true" (.bytes aud)]

/-- Trace up to and including the metadata upload call. -/
def evsMeta (lines : List String) (script aud : String) (now : Date) : List Event :=
  evsAud lines script aud ++
    [Event.uploadCall BUCKET_NAME DATA_PATH "application/json" "true"
      (.json (mkMetadata now script))]

/-- The body of `main()`: the ordered trace of outbound calls (and the
error-handler log line, when reached) together with how the run ended.
Mirrors the script line by line: fetch; `status == 'error'` → `return`;
build article lines from `data.get('results', [])[:5]` (a `KeyError`
jumps to the handler); empty list → `return`; chat completion; TTS;
audio upload; metadata upload; any exception → handler → `exit(1)`. -/
def runMain (inp : RunInput) : List Event × Outcome :=
  match inp.fetch with
  | .error e => ([.fetchNews, errLog e], .abortedException)
  | .ok data =>
    if data.status = some "error" then
      ([.fetchNews], .abortedReturn)
    else
      match buildLines ((data.results.getD []).take 5) with
      | .error e => ([.fetchNews, errLog e], .abortedException)
      | .ok lines =>
        if lines.isEmpty then
          ([.fetchNews], .abortedReturn)
        else
          match inp.llm with
          | .error e => (evsLlm lines ++ [errLog e], .abortedException)
          | .ok script =>
            match inp.tts with
            | .error e => (evsTts lines script ++ [errLog e], .abortedException)
            | .ok aud =>
              match inp.uploadAudioRes with
              | .error e => (evsAud lines script aud ++ [errLog e], .abortedException)
              | .ok _ =>
                match inp.uploadMetaRes with
                | .error e => (evsMeta lines script aud inp.now ++ [errLog e], .abortedException)
                | .ok _ => (evsMeta lines script aud inp.now, .completed)

/-- The four secrets as read from the process environment by `os.getenv`
(`none` = variable unset). -/
structure Secrets where
  newsApiKey : Option String
  groqApiKey : Option String
  supabaseUrl : Option String
  supabaseKey : Option String
deriving DecidableEq

/-- Python truthiness of an `os.getenv` result: `None` and `""` are falsy. -/
def truthy : Option String → Bool
  | none => false
  | some s => s ≠ ""

/-- The module-level check `all([NEWS_API_KEY, GROQ_API_KEY, SUPABASE_URL,
SUPABASE_KEY])`. -/
def secretsOk (s : Secrets) : Bool :=
  truthy s.newsApiKey && truthy s.groqApiKey && truthy s.supabaseUrl && truthy s.supabaseKey

/-- The module-level error line printed when a secret is missing. -/
def secretsMissingMsg : String :=
  "❌ ERROR: One or more API Keys are missing from GitHub Secrets."

/-- The whole process: the module-level secret check runs before any client
is used; on failure it logs and calls `exit(1)` before `main()` starts;
otherwise the exit code is determined by `main()`'s outcome. -/
def runProcess (s : Secrets) (inp : RunInput) : List Event × Nat :=
  if secretsOk s then
    ((runMain inp).1, exitCode (runMain inp).2)
  else
    ([.logMsg secretsMissingMsg], 1)

/-- Event classifiers over the trace. -/
def isFetch : Event → Bool
  | .fetchNews => true
  | _ => false

/-- True on the chat-completion call. -/
def isLlm : Event → Bool
  | .llmCall _ _ _ => true
  | _ => false

/-- True on the TTS call. -/
def isTts : Event → Bool
  | .ttsCall _ _ => true
  | _ => false

/-- True on either storage upload call. -/
def isUpload : Event → Bool
  | .uploadCall _ _ _ _ _ => true
  | _ => false

/-- True on the audio (bytes payload) upload call. -/
def isAudUpload : Event → Bool
  | .uploadCall _ _ _ _ (.bytes _) => true
  | _ => false

/-- True on the metadata (JSON payload) upload call. -/
def isJsonUpload : Event → Bool
  | .uploadCall _ _ _ _ (.json _) => true
  | _ => false

/-- True on any outbound network call (anything but a log line). -/
def isNetworkCall (e : Event) : Bool :=
  isFetch e || isLlm e || isTts e || isUpload e

/-- Destination path of an upload event (`""` elsewhere). -/
def uploadPathOf : Event → String
  | .uploadCall _ p _ _ _ => p
  | _ => ""

/-- Modelled from the spec: "use the description field if present and
non-empty, else fall back to the title" — the spec-side rendering of one
article, to be compared with the source-side `articleLine`. -/
def specArticleLine (it : NewsItem) : String :=
  match it.title, it.description with
  | some t, some d =>
      if d ≠ "" then "Headline: " ++ t ++ "\nSummary: " ++ d
      else "Headline: " ++ t ++ "\nSummary: " ++ t
  | some t, none => "Headline: " ++ t ++ "\nSummary: " ++ t
  | none, _ => ""

/-- The run reached the Script Composer: fetch decoded, status not
`'error'`, article lines built without exception and non-empty. -/
def composeReached (inp : RunInput) : Prop :=
  ∃ data lines, inp.fetch = .ok data ∧ data.status ≠ some "error" ∧
    buildLines ((data.results.getD []).take 5) = .ok lines ∧ lines ≠ []

/-- A full set of (dummy) secrets, for concrete evaluations. -/
def okSecrets : Secrets := ⟨some "k1", some "k2", some "k3", some "k4"⟩

/-- Secrets with the news API key unset. -/
def wMissingSecrets : Secrets := ⟨none, some "k2", some "k3", some "k4"⟩

/-- A news API body carrying `status = "error"`. -/
def respErr : NewsResponse := { status := some "error", results := none }

/-- A success body with an empty `results` array. -/
def respEmpty : NewsResponse := { status := some "success", results := some [] }

/-- Two well-formed result items: one with a description, one without. -/
def wItems : List NewsItem := [⟨some "T1", some "D1"⟩, ⟨some "T2", none⟩]

/-- A success body with the two well-formed items. -/
def wResp : NewsResponse := { status := some "success", results := some wItems }

/-- A concrete run date. -/
def wDate : Date := ⟨2026, 10, 12⟩

/-- The article lines the script builds from `wItems`. -/
def wLines : List String :=
  ["Headline: T1\nSummary: D1", "Headline: T2\nSummary: T2"]

/-- A run in which every external call succeeds. -/
def wInp : RunInput := ⟨.ok wResp, .ok "SCRIPT", .ok "BYTES", .ok (), .ok (), wDate⟩

/-- A run whose chat completion returns the empty string. -/
def wInpEmptyScript : RunInput := ⟨.ok wResp, .ok "", .ok "BYTES", .ok (), .ok (), wDate⟩

/-- A run whose news API body carries `status = "error"`. -/
def wInpErrResp : RunInput := ⟨.ok respErr, .ok "SCRIPT", .ok "BYTES", .ok (), .ok (), wDate⟩

/-- A run whose news API body has an empty `results` array. -/
def wInpEmptyResp : RunInput := ⟨.ok respEmpty, .ok "SCRIPT", .ok "BYTES", .ok (), .ok (), wDate⟩

/-- A run whose news fetch raises. -/
def wInpFetchFail : RunInput := ⟨.error "ConnectionError", .ok "SCRIPT", .ok "BYTES", .ok (), .ok (), wDate⟩

/-- A success body whose second item lacks a `title` field. -/
def wRespNoTitle : NewsResponse :=
  { status := some "success", results := some [⟨some "T1", some "D1"⟩, ⟨none, some "D2"⟩] }

/-- A run over `wRespNoTitle` in which every other collaborator succeeds. -/
def wInpNoTitle : RunInput := ⟨.ok wRespNoTitle, .ok "SCRIPT", .ok "BYTES", .ok (), .ok (), wDate⟩

/-- Exhaustive enumeration of the run's possible traces and outcomes: the
script is a linear decision tree, so every run is one of nine shapes. -/
theorem run_shape (inp : RunInput) :
    (∃ e, inp.fetch = .error e ∧
      runMain inp = ([.fetchNews, errLog e], .abortedException)) ∨
    (∃ d, inp.fetch = .ok d ∧ d.status = some "error" ∧
      runMain inp = ([.fetchNews], .abortedReturn)) ∨
    (∃ d e, inp.fetch = .ok d ∧ d.status ≠ some "error" ∧
      buildLines ((d.results.getD []).take 5) = .error e ∧
      runMain inp = ([.fetchNews, errLog e], .abortedException)) ∨
    (∃ d, inp.fetch = .ok d ∧ d.status ≠ some "error" ∧
      buildLines ((d.results.getD []).take 5) = .ok [] ∧
      runMain inp = ([.fetchNews], .abortedReturn)) ∨
    (∃ d L e, inp.fetch = .ok d ∧ d.status ≠ some "error" ∧
      buildLines ((d.results.getD []).take 5) = .ok L ∧ L ≠ [] ∧
      inp.llm = .error e ∧
      runMain inp = (evsLlm L ++ [errLog e], .abortedException)) ∨
    (∃ d L s e, inp.fetch = .ok d ∧ d.status ≠ some "error" ∧
      buildLines ((d.results.getD []).take 5) = .ok L ∧ L ≠ [] ∧
      inp.llm = .ok s ∧ inp.tts = .error e ∧
      runMain inp = (evsTts L s ++ [errLog e], .abortedException)) ∨
    (∃ d L s a e, inp.fetch = .ok d ∧ d.status ≠ some "error" ∧
      buildLines ((d.results.getD []).take 5) = .ok L ∧ L ≠ [] ∧
      inp.llm = .ok s ∧ inp.tts = .ok a ∧ inp.uploadAudioRes = .error e ∧
      runMain inp = (evsAud L s a ++ [errLog e], .abortedException)) ∨
    (∃ d L s a e, inp.fetch = .ok d ∧ d.status ≠ some "error" ∧
      buildLines ((d.results.getD []).take 5) = .ok L ∧ L ≠ [] ∧
      inp.llm = .ok s ∧ inp.tts = .ok a ∧ inp.uploadAudioRes = .ok () ∧
      inp.uploadMetaRes = .error e ∧
      runMain inp = (evsMeta L s a inp.now ++ [errLog e], .abortedException)) ∨
    (∃ d L s a, inp.fetch = .ok d ∧ d.status ≠ some "error" ∧
      buildLines ((d.results.getD []).take 5) = .ok L ∧ L ≠ [] ∧
      inp.llm = .ok s ∧ inp.tts = .ok a ∧ inp.uploadAudioRes = .ok () ∧
      inp.uploadMetaRes = .ok () ∧
      runMain inp = (evsMeta L s a inp.now, .completed)) := by
  cases hf : inp.fetch with
  | error e => exact Or.inl ⟨e, rfl, by simp [runMain, hf]⟩
  | ok d =>
    by_cases hs : d.status = some "error"
    · exact Or.inr (Or.inl ⟨d, rfl, hs, by simp [runMain, hf, hs]⟩)
    · cases hb : buildLines ((d.results.getD []).take 5) with
      | error e =>
        exact Or.inr (Or.inr (Or.inl ⟨d, e, rfl, hs, hb, by simp [runMain, hf, hs, hb]⟩))
      | ok L =>
        cases L with
        | nil =>
          refine Or.inr (Or.inr (Or.inr (Or.inl ⟨d, rfl, hs, hb, ?_⟩)))
          simp [runMain, hf, hs, hb]
        | cons l ls =>
          cases hl : inp.llm with
          | error e =>
            refine Or.inr (Or.inr (Or.inr (Or.inr (Or.inl
              ⟨d, l :: ls, e, rfl, hs, hb, by simp, rfl, ?_⟩))))
            simp [runMain, hf, hs, hb, hl]
          | ok s =>
            cases ht : inp.tts with
            | error e =>
              refine Or.inr (Or.inr (Or.inr (Or.inr (Or.inr (Or.inl
                ⟨d, l :: ls, s, e, rfl, hs, hb, by simp, rfl, rfl, ?_⟩)))))
              simp [runMain, hf, hs, hb, hl, ht]
            | ok a =>
              cases hua : inp.uploadAudioRes with
              | error e =>
                refine Or.inr (Or.inr (Or.inr (Or.inr (Or.inr (Or.inr (Or.inl
                  ⟨d, l :: ls, s, a, e, rfl, hs, hb, by simp, rfl, rfl, rfl, ?_⟩))))))
                simp [runMain, hf, hs, hb, hl, ht, hua]
              | ok u =>
                cases u
                cases hum : inp.uploadMetaRes with
                | error e =>
                  refine Or.inr (Or.inr (Or.inr (Or.inr (Or.inr (Or.inr (Or.inr (Or.inl
                    ⟨d, l :: ls, s, a, e, rfl, hs, hb, by simp, rfl, rfl, rfl, rfl, ?_⟩)))))))
                  simp [runMain, hf, hs, hb, hl, ht, hua, hum]
                | ok v =>
                  cases v
                  refine Or.inr (Or.inr (Or.inr (Or.inr (Or.inr (Or.inr (Or.inr (Or.inr
                    ⟨d, l :: ls, s, a, rfl, hs, hb, by simp, rfl, rfl, rfl, rfl, ?_⟩)))))))
                  simp [runMain, hf, hs, hb, hl, ht, hua, hum]

/-- When every taken item has a title, the source-side loop agrees with the
spec-side rendering, mapped in order. -/
theorem buildLines_ok (l : List NewsItem) (h : ∀ it ∈ l, it.title ≠ none) :
    buildLines l = .ok (l.map specArticleLine) := by
  induction l with
  | nil => rfl
  | cons it rest ih =>
    have hti : it.title ≠ none := h it (List.mem_cons_self it rest)
    obtain ⟨t, ht⟩ : ∃ t, it.title = some t := by
      cases hx : it.title with
      | none => exact absurd hx hti
      | some t => exact ⟨t, rfl⟩
    have hrest := ih fun x hx => h x (List.mem_cons_of_mem _ hx)
    cases hd : it.description with
    | none => simp [buildLines, articleLine, ht, hd, pyOr, hrest, specArticleLine]
    | some dsc =>
      by_cases hde : dsc = "" <;>
        simp [buildLines, articleLine, ht, hd, pyOr, hrest, specArticleLine, hde]

/-- A missing title among the processed items makes the loop raise. -/
theorem buildLines_err (l : List NewsItem) (h : ∃ it ∈ l, it.title = none) :
    ∃ e, buildLines l = .error e := by
  induction l with
  | nil => simp at h
  | cons it rest ih =>
    rcases h with ⟨x, hx, hxt⟩
    rcases List.mem_cons.mp hx with h1 | h2
    · subst h1
      exact ⟨"KeyError: 'title'", by simp [buildLines, articleLine, hxt]⟩
    · cases hal : articleLine it with
      | error e => exact ⟨e, by simp [buildLines, hal]⟩
      | ok line =>
        obtain ⟨e, he⟩ := ih ⟨x, h2, hxt⟩
        exact ⟨e, by simp [buildLines, hal, he]⟩

/-- C1: on a body with `status=error`, and likewise on an empty results
array, the run aborts before the Composer (the trace holds only the fetch,
no LLM/TTS/upload call) — but `main()` merely returns, so the process
exits 0, not non-zero as the claim requires. -/
theorem c1_abort_paths_exit_zero :
    runProcess okSecrets wInpErrResp = ([Event.fetchNews], 0) ∧
    runProcess okSecrets wInpEmptyResp = ([Event.fetchNews], 0) := by
  constructor <;> rfl

/-- C2: for a success response with a non-empty results array (whose taken
items carry a title, as the spec's article model prescribes), the fetch
stage builds exactly `min 5 results.length` article lines, in response
order, each using the description when present and non-empty, else the
title. -/
theorem c2_fetcher_builds_min5_articles (d : NewsResponse) (rs : List NewsItem)
    (hst : d.status = some "success") (hrs : d.results = some rs) (hne : rs ≠ [])
    (ht : ∀ it ∈ rs.take 5, it.title ≠ none) :
    buildLines ((d.results.getD []).take 5) = .ok ((rs.take 5).map specArticleLine) ∧
    ((rs.take 5).map specArticleLine).length = min 5 rs.length := by
  have hgd : d.results.getD [] = rs := by rw [hrs]; rfl
  constructor
  · rw [hgd]; exact buildLines_ok _ ht
  · simp

/-- C2 witness at a concrete two-item success response. -/
theorem c2_witness :
    buildLines ((wResp.results.getD []).take 5) = .ok ((wItems.take 5).map specArticleLine) ∧
    ((wItems.take 5).map specArticleLine).length = min 5 wItems.length :=
  c2_fetcher_builds_min5_articles wResp wItems rfl rfl (by decide) (by decide)

/-- C7: with any one of the four secrets unset, the module-level check
fails: the process exits 1 and the trace holds no network call. -/
theorem c7_missing_secret_exits_before_network (s : Secrets) (inp : RunInput)
    (h : s.newsApiKey = none ∨ s.groqApiKey = none ∨ s.supabaseUrl = none ∨
      s.supabaseKey = none) :
    (runProcess s inp).2 = 1 ∧ ∀ ev ∈ (runProcess s inp).1, isNetworkCall ev = false := by
  have hok : secretsOk s = false := by
    rcases h with h | h | h | h <;> simp [secretsOk, truthy, h]
  refine ⟨by simp [runProcess, hok], ?_⟩
  intro ev hev
  simp [runProcess, hok] at hev
  subst hev
  rfl

/-- C7 witness with the news API key unset. -/
theorem c7_witness :
    (runProcess wMissingSecrets wInp).2 = 1 ∧
    ∀ ev ∈ (runProcess wMissingSecrets wInp).1, isNetworkCall ev = false :=
  c7_missing_secret_exits_before_network wMissingSecrets wInp (Or.inl rfl)

/-- C10: when one of the first five result items lacks a `title`, the
`KeyError` propagates to the top-level handler: exit code 1 and no LLM,
TTS or upload call, however well-formed the other items are. -/
theorem c10_missing_title_aborts (inp : RunInput) (d : NewsResponse)
    (hf : inp.fetch = .ok d) (hst : d.status = some "success")
    (hbad : ∃ it ∈ (d.results.getD []).take 5, it.title = none) :
    exitCode (runMain inp).2 = 1 ∧
    ∀ ev ∈ (runMain inp).1, isLlm ev = false ∧ isTts ev = false ∧ isUpload ev = false := by
  obtain ⟨e, hb⟩ := buildLines_err _ hbad
  have hs : d.status ≠ some "error" := by rw [hst]; simp
  have heq : runMain inp = ([.fetchNews, errLog e], .abortedException) := by
    simp [runMain, hf, hs, hb]
  rw [heq]
  refine ⟨rfl, ?_⟩
  intro ev hev
  simp at hev
  rcases hev with rfl | rfl <;> exact ⟨rfl, rfl, rfl⟩

/-- C10 witness: the second of two items lacks a title. -/
theorem c10_witness :
    exitCode (runMain wInpNoTitle).2 = 1 ∧
    ∀ ev ∈ (runMain wInpNoTitle).1,
      isLlm ev = false ∧ isTts ev = false ∧ isUpload ev = false :=
  c10_missing_title_aborts wInpNoTitle wRespNoTitle rfl rfl (by decide)

/-- C3: the user message handed to the chat-completion call is exactly the
per-article lines joined by one blank line, in fetch order, with at most
the first five entries; and every chat-completion call in the trace (there
is only one) carries that very message. -/
theorem c3_composer_user_message (inp : RunInput) (d : NewsResponse) (rs : List NewsItem)
    (hf : inp.fetch = .ok d) (hst : d.status = some "success")
    (hrs : d.results = some rs) (hne : rs ≠ [])
    (ht : ∀ it ∈ rs.take 5, it.title ≠ none) :
    Event.llmCall systemPrompt
        (String.intercalate "\n\n" ((rs.take 5).map specArticleLine)) MODEL_ID
      ∈ (runMain inp).1 ∧
    (∀ sm u m, Event.llmCall sm u m ∈ (runMain inp).1 →
      u = String.intercalate "\n\n" ((rs.take 5).map specArticleLine)) ∧
    ((rs.take 5).map specArticleLine).length ≤ 5 := by
  have hgd : d.results.getD [] = rs := by rw [hrs]; rfl
  have hok : buildLines ((d.results.getD []).take 5) =
      .ok ((rs.take 5).map specArticleLine) := by
    rw [hgd]; exact buildLines_ok _ ht
  have hsne : d.status ≠ some "error" := by rw [hst]; simp
  have hlen : ((rs.take 5).map specArticleLine).length ≤ 5 := by
    simp only [List.length_map, List.length_take]; omega
  have hlne : (rs.take 5).map specArticleLine ≠ [] := by
    cases rs with
    | nil => exact absurd rfl hne
    | cons r rest =>
      have hrr : (r :: rest).take 5 = r :: rest.take 4 := rfl
      rw [hrr]; simp
  rcases run_shape inp with
    ⟨e, hfe, heq⟩ | ⟨d2, hfd, hs2, heq⟩ | ⟨d2, e, hfd, hs2, hb2, heq⟩ |
    ⟨d2, hfd, hs2, hb2, heq⟩ |
    ⟨d2, L, e, hfd, hs2, hb2, hL, hl, heq⟩ |
    ⟨d2, L, s, e, hfd, hs2, hb2, hL, hl, ht2, heq⟩ |
    ⟨d2, L, s, a, e, hfd, hs2, hb2, hL, hl, ht2, hua, heq⟩ |
    ⟨d2, L, s, a, e, hfd, hs2, hb2, hL, hl, ht2, hua, hum, heq⟩ |
    ⟨d2, L, s, a, hfd, hs2, hb2, hL, hl, ht2, hua, hum, heq⟩
  · simp [hf] at hfe
  · rw [hf] at hfd; injection hfd with hdd; subst hdd; exact absurd hs2 hsne
  · rw [hf] at hfd; injection hfd with hdd; subst hdd
    rw [hok] at hb2; simp at hb2
  · rw [hf] at hfd; injection hfd with hdd; subst hdd
    rw [hok] at hb2; injection hb2 with hLL; exact absurd hLL hlne
  · rw [hf] at hfd; injection hfd with hdd; subst hdd
    rw [hok] at hb2; injection hb2 with hLL; subst hLL
    rw [heq]
    refine ⟨by simp [evsLlm], ?_, hlen⟩
    intro sm u m hm
    simp [evsLlm, errLog] at hm
    rw [List.map_take]
    exact hm.2.1
  · rw [hf] at hfd; injection hfd with hdd; subst hdd
    rw [hok] at hb2; injection hb2 with hLL; subst hLL
    rw [heq]
    refine ⟨by simp [evsTts, evsLlm], ?_, hlen⟩
    intro sm u m hm
    simp [evsTts, evsLlm, errLog] at hm
    rw [List.map_take]
    exact hm.2.1
  · rw [hf] at hfd; injection hfd with hdd; subst hdd
    rw [hok] at hb2; injection hb2 with hLL; subst hLL
    rw [heq]
    refine ⟨by simp [evsAud, evsTts, evsLlm], ?_, hlen⟩
    intro sm u m hm
    simp [evsAud, evsTts, evsLlm, errLog] at hm
    rw [List.map_take]
    exact hm.2.1
  · rw [hf] at hfd; injection hfd with hdd; subst hdd
    rw [hok] at hb2; injection hb2 with hLL; subst hLL
    rw [heq]
    refine ⟨by simp [evsMeta, evsAud, evsTts, evsLlm], ?_, hlen⟩
    intro sm u m hm
    simp [evsMeta, evsAud, evsTts, evsLlm, errLog] at hm
    rw [List.map_take]
    exact hm.2.1
  · rw [hf] at hfd; injection hfd with hdd; subst hdd
    rw [hok] at hb2; injection hb2 with hLL; subst hLL
    rw [heq]
    refine ⟨by simp [evsMeta, evsAud, evsTts, evsLlm], ?_, hlen⟩
    intro sm u m hm
    simp [evsMeta, evsAud, evsTts, evsLlm, errLog] at hm
    rw [List.map_take]
    exact hm.2.1

/-- C3 witness at the concrete two-item response. -/
theorem c3_witness :
    Event.llmCall systemPrompt
        (String.intercalate "\n\n" ((wItems.take 5).map specArticleLine)) MODEL_ID
      ∈ (runMain wInp).1 ∧
    (∀ sm u m, Event.llmCall sm u m ∈ (runMain wInp).1 →
      u = String.intercalate "\n\n" ((wItems.take 5).map specArticleLine)) ∧
    ((wItems.take 5).map specArticleLine).length ≤ 5 :=
  c3_composer_user_message wInp wResp wItems rfl rfl rfl (by decide) (by decide)

/-- C4: whatever script the Composer returned, the metadata record handed
to the JSON upload call carries exactly that script as `summary` and the
run date rendered as `strftime("%B %d, %Y")` as `date`. -/
theorem c4_metadata_summary_and_date (inp : RunInput) (script : String)
    (hllm : inp.llm = .ok script) :
    ∀ bk p ct up md,
      Event.uploadCall bk p ct up (.json md) ∈ (runMain inp).1 →
        md.summary = script ∧ md.date = strftimeBdY inp.now := by
  intro bk p ct up md hm
  rcases run_shape inp with
    ⟨e, hfe, heq⟩ | ⟨d2, hfd, hs2, heq⟩ | ⟨d2, e, hfd, hs2, hb2, heq⟩ |
    ⟨d2, hfd, hs2, hb2, heq⟩ |
    ⟨d2, L, e, hfd, hs2, hb2, hL, hl, heq⟩ |
    ⟨d2, L, s, e, hfd, hs2, hb2, hL, hl, ht2, heq⟩ |
    ⟨d2, L, s, a, e, hfd, hs2, hb2, hL, hl, ht2, hua, heq⟩ |
    ⟨d2, L, s, a, e, hfd, hs2, hb2, hL, hl, ht2, hua, hum, heq⟩ |
    ⟨d2, L, s, a, hfd, hs2, hb2, hL, hl, ht2, hua, hum, heq⟩
  · rw [heq] at hm; simp [errLog] at hm
  · rw [heq] at hm; simp at hm
  · rw [heq] at hm; simp [errLog] at hm
  · rw [heq] at hm; simp at hm
  · rw [heq] at hm; simp [evsLlm, errLog] at hm
  · rw [heq] at hm; simp [evsTts, evsLlm, errLog] at hm
  · rw [heq] at hm; simp [evsAud, evsTts, evsLlm, errLog] at hm
  · rw [heq] at hm
    simp [evsMeta, evsAud, evsTts, evsLlm, errLog] at hm
    obtain ⟨-, -, -, -, hmd⟩ := hm
    rw [hllm] at hl; injection hl with hss; subst hss
    subst hmd
    exact ⟨rfl, rfl⟩
  · rw [heq] at hm
    simp [evsMeta, evsAud, evsTts, evsLlm, errLog] at hm
    obtain ⟨-, -, -, -, hmd⟩ := hm
    rw [hllm] at hl; injection hl with hss; subst hss
    subst hmd
    exact ⟨rfl, rfl⟩

/-- C4 witness: the completed concrete run's metadata. -/
theorem c4_witness :
    (mkMetadata wDate "SCRIPT").summary = "SCRIPT" ∧
    (mkMetadata wDate "SCRIPT").date = strftimeBdY wInp.now :=
  c4_metadata_summary_and_date wInp "SCRIPT" rfl BUCKET_NAME DATA_PATH
    "application/json" "true" (mkMetadata wDate "SCRIPT") (by decide)

/-- C5 counterexample: an LLM completion whose extracted text is empty does
NOT abort the run — the TTS call is still made (with the empty string) and
the uploads still happen, refuting the claimed invariant. -/
theorem c5_counterexample :
    wInpEmptyScript.llm = .ok "" ∧
    Event.ttsCall "" VOICE_ID ∈ (runMain wInpEmptyScript).1 ∧
    ∃ ev ∈ (runMain wInpEmptyScript).1, isUpload ev = true :=
  ⟨rfl, by decide, by decide⟩

/-- C5 (amended): the pipeline performs no emptiness check on the Script:
whenever the Composer stage returns a script — the empty string included —
speech synthesis is invoked with exactly that text. -/
theorem c5_tts_called_even_on_empty_script (inp : RunInput) (d : NewsResponse)
    (L : List String) (script : String)
    (hf : inp.fetch = .ok d) (hs : d.status ≠ some "error")
    (hb : buildLines ((d.results.getD []).take 5) = .ok L) (hL : L ≠ [])
    (hllm : inp.llm = .ok script) :
    Event.ttsCall script VOICE_ID ∈ (runMain inp).1 := by
  rcases run_shape inp with
    ⟨e, hfe, heq⟩ | ⟨d2, hfd, hs2, heq⟩ | ⟨d2, e, hfd, hs2, hb2, heq⟩ |
    ⟨d2, hfd, hs2, hb2, heq⟩ |
    ⟨d2, L2, e, hfd, hs2, hb2, hL2, hl, heq⟩ |
    ⟨d2, L2, s, e, hfd, hs2, hb2, hL2, hl, ht2, heq⟩ |
    ⟨d2, L2, s, a, e, hfd, hs2, hb2, hL2, hl, ht2, hua, heq⟩ |
    ⟨d2, L2, s, a, e, hfd, hs2, hb2, hL2, hl, ht2, hua, hum, heq⟩ |
    ⟨d2, L2, s, a, hfd, hs2, hb2, hL2, hl, ht2, hua, hum, heq⟩
  · simp [hf] at hfe
  · rw [hf] at hfd; injection hfd with hdd; subst hdd; exact absurd hs2 hs
  · rw [hf] at hfd; injection hfd with hdd; subst hdd
    rw [hb] at hb2; simp at hb2
  · rw [hf] at hfd; injection hfd with hdd; subst hdd
    rw [hb] at hb2; injection hb2 with hLL; subst hLL; exact absurd rfl hL
  · rw [hllm] at hl; simp at hl
  · rw [hllm] at hl; injection hl with hss; subst hss
    rw [heq]; simp [evsTts, evsLlm]
  · rw [hllm] at hl; injection hl with hss; subst hss
    rw [heq]; simp [evsAud, evsTts, evsLlm]
  · rw [hllm] at hl; injection hl with hss; subst hss
    rw [heq]; simp [evsMeta, evsAud, evsTts, evsLlm]
  · rw [hllm] at hl; injection hl with hss; subst hss
    rw [heq]; simp [evsMeta, evsAud, evsTts, evsLlm]

/-- C5 amended-claim witness: the empty script reaches TTS verbatim. -/
theorem c5_witness :
    Event.ttsCall "" VOICE_ID ∈ (runMain wInpEmptyScript).1 :=
  c5_tts_called_even_on_empty_script wInpEmptyScript wResp wLines ""
    rfl (by decide) rfl (by decide) rfl

/-- C8: the filtered upload sub-trace is empty, the audio call alone
(made and completed or failed, metadata never started), or the audio call
followed by the metadata call with the audio call having succeeded —
metadata is never uploaded first, alone, or concurrently. -/
theorem c8_audio_before_metadata (inp : RunInput) :
    (runMain inp).1.filter isUpload = [] ∨
    (∃ a, (runMain inp).1.filter isUpload =
      [Event.uploadCall BUCKET_NAME AUDIO_PATH "audio/mpeg" "true" (.bytes a)]) ∨
    (∃ a md, (runMain inp).1.filter isUpload =
      [Event.uploadCall BUCKET_NAME AUDIO_PATH "audio/mpeg" "true" (.bytes a),
       Event.uploadCall BUCKET_NAME DATA_PATH "application/json" "true" (.json md)] ∧
      inp.uploadAudioRes = .ok ()) := by
  rcases run_shape inp with
    ⟨e, hfe, heq⟩ | ⟨d2, hfd, hs2, heq⟩ | ⟨d2, e, hfd, hs2, hb2, heq⟩ |
    ⟨d2, hfd, hs2, hb2, heq⟩ |
    ⟨d2, L, e, hfd, hs2, hb2, hL, hl, heq⟩ |
    ⟨d2, L, s, e, hfd, hs2, hb2, hL, hl, ht2, heq⟩ |
    ⟨d2, L, s, a, e, hfd, hs2, hb2, hL, hl, ht2, hua, heq⟩ |
    ⟨d2, L, s, a, e, hfd, hs2, hb2, hL, hl, ht2, hua, hum, heq⟩ |
    ⟨d2, L, s, a, hfd, hs2, hb2, hL, hl, ht2, hua, hum, heq⟩
  · exact Or.inl (by rw [heq]; simp [errLog, isUpload])
  · exact Or.inl (by rw [heq]; simp [isUpload])
  · exact Or.inl (by rw [heq]; simp [errLog, isUpload])
  · exact Or.inl (by rw [heq]; simp [isUpload])
  · exact Or.inl (by rw [heq]; simp [evsLlm, errLog, isUpload])
  · exact Or.inl (by rw [heq]; simp [evsTts, evsLlm, errLog, isUpload])
  · exact Or.inr (Or.inl ⟨a, by
      rw [heq]; simp [evsAud, evsTts, evsLlm, errLog, isUpload]⟩)
  · exact Or.inr (Or.inr ⟨a, mkMetadata inp.now s, by
      rw [heq]; simp [evsMeta, evsAud, evsTts, evsLlm, errLog, isUpload], hua⟩)
  · exact Or.inr (Or.inr ⟨a, mkMetadata inp.now s, by
      rw [heq]; simp [evsMeta, evsAud, evsTts, evsLlm, errLog, isUpload], hua⟩)

/-- A run whose outcome is `completed` made exactly the two upload calls,
audio first. -/
theorem completed_uploads (inp : RunInput) (h : (runMain inp).2 = .completed) :
    ∃ a md, (runMain inp).1.filter isUpload =
      [Event.uploadCall BUCKET_NAME AUDIO_PATH "audio/mpeg" "true" (.bytes a),
       Event.uploadCall BUCKET_NAME DATA_PATH "application/json" "true" (.json md)] := by
  rcases run_shape inp with
    ⟨e, hfe, heq⟩ | ⟨d2, hfd, hs2, heq⟩ | ⟨d2, e, hfd, hs2, hb2, heq⟩ |
    ⟨d2, hfd, hs2, hb2, heq⟩ |
    ⟨d2, L, e, hfd, hs2, hb2, hL, hl, heq⟩ |
    ⟨d2, L, s, e, hfd, hs2, hb2, hL, hl, ht2, heq⟩ |
    ⟨d2, L, s, a, e, hfd, hs2, hb2, hL, hl, ht2, hua, heq⟩ |
    ⟨d2, L, s, a, e, hfd, hs2, hb2, hL, hl, ht2, hua, hum, heq⟩ |
    ⟨d2, L, s, a, hfd, hs2, hb2, hL, hl, ht2, hua, hum, heq⟩
  · rw [heq] at h; simp at h
  · rw [heq] at h; simp at h
  · rw [heq] at h; simp at h
  · rw [heq] at h; simp at h
  · rw [heq] at h; simp at h
  · rw [heq] at h; simp at h
  · rw [heq] at h; simp at h
  · rw [heq] at h; simp at h
  · exact ⟨a, mkMetadata inp.now s, by
      rw [heq]; simp [evsMeta, evsAud, evsTts, evsLlm, isUpload]⟩

/-- C9: every run that completes the pipeline uploads exactly two objects —
the audio at `public/latest_brief.mp3` as `audio/mpeg` and the metadata at
`public/latest_data.json` as `application/json`, both with upsert — and any
two completed runs write the same two paths, so a rerun overwrites rather
than creating duplicate or versioned objects. -/
theorem c9_completed_runs_upload_same_two_paths (inp inp2 : RunInput)
    (h : (runMain inp).2 = .completed) (h2 : (runMain inp2).2 = .completed) :
    (∃ a md, (runMain inp).1.filter isUpload =
      [Event.uploadCall BUCKET_NAME AUDIO_PATH "audio/mpeg" "true" (.bytes a),
       Event.uploadCall BUCKET_NAME DATA_PATH "application/json" "true" (.json md)]) ∧
    (∃ a md, (runMain inp2).1.filter isUpload =
      [Event.uploadCall BUCKET_NAME AUDIO_PATH "audio/mpeg" "true" (.bytes a),
       Event.uploadCall BUCKET_NAME DATA_PATH "application/json" "true" (.json md)]) ∧
    ((runMain inp).1.filter isUpload).map uploadPathOf =
      ((runMain inp2).1.filter isUpload).map uploadPathOf ∧
    ((runMain inp).1.filter isUpload).map uploadPathOf = [AUDIO_PATH, DATA_PATH] := by
  obtain ⟨a, md, hu⟩ := completed_uploads inp h
  obtain ⟨a2, md2, hu2⟩ := completed_uploads inp2 h2
  refine ⟨⟨a, md, hu⟩, ⟨a2, md2, hu2⟩, ?_, ?_⟩
  · rw [hu, hu2]; rfl
  · rw [hu]; rfl

/-- C9 witness: the all-success concrete run, taken twice. -/
theorem c9_witness :
    (∃ a md, (runMain wInp).1.filter isUpload =
      [Event.uploadCall BUCKET_NAME AUDIO_PATH "audio/mpeg" "true" (.bytes a),
       Event.uploadCall BUCKET_NAME DATA_PATH "application/json" "true" (.json md)]) ∧
    (∃ a md, (runMain wInp).1.filter isUpload =
      [Event.uploadCall BUCKET_NAME AUDIO_PATH "audio/mpeg" "true" (.bytes a),
       Event.uploadCall BUCKET_NAME DATA_PATH "application/json" "true" (.json md)]) ∧
    ((runMain wInp).1.filter isUpload).map uploadPathOf =
      ((runMain wInp).1.filter isUpload).map uploadPathOf ∧
    ((runMain wInp).1.filter isUpload).map uploadPathOf = [AUDIO_PATH, DATA_PATH] :=
  c9_completed_runs_upload_same_two_paths wInp wInp (by decide) (by decide)

/-- C6: every exception raised in the fetch, compose, synthesize or publish
stage is caught at the top level — the handler logs a message and the
process exits 1; no stage appears more than once in the trace (no retry);
and a zero exit never leaves a partial publish (either no upload call was
made, or both were made and succeeded). -/
theorem c6_errors_caught_exit_nonzero (inp : RunInput) :
    ((∃ e, inp.fetch = .error e) →
      exitCode (runMain inp).2 = 1 ∧ ∃ m, Event.logMsg m ∈ (runMain inp).1) ∧
    (∀ d, inp.fetch = .ok d → d.status ≠ some "error" →
      (∃ e, buildLines ((d.results.getD []).take 5) = .error e) →
      exitCode (runMain inp).2 = 1 ∧ ∃ m, Event.logMsg m ∈ (runMain inp).1) ∧
    (composeReached inp → (∃ e, inp.llm = .error e) →
      exitCode (runMain inp).2 = 1 ∧ ∃ m, Event.logMsg m ∈ (runMain inp).1) ∧
    (composeReached inp → (∃ e, inp.tts = .error e) →
      exitCode (runMain inp).2 = 1 ∧ ∃ m, Event.logMsg m ∈ (runMain inp).1) ∧
    (composeReached inp → (∃ e, inp.uploadAudioRes = .error e) →
      exitCode (runMain inp).2 = 1 ∧ ∃ m, Event.logMsg m ∈ (runMain inp).1) ∧
    (composeReached inp → (∃ e, inp.uploadMetaRes = .error e) →
      exitCode (runMain inp).2 = 1 ∧ ∃ m, Event.logMsg m ∈ (runMain inp).1) ∧
    (((runMain inp).1.filter isFetch).length ≤ 1 ∧
     ((runMain inp).1.filter isLlm).length ≤ 1 ∧
     ((runMain inp).1.filter isTts).length ≤ 1 ∧
     ((runMain inp).1.filter isAudUpload).length ≤ 1 ∧
     ((runMain inp).1.filter isJsonUpload).length ≤ 1) ∧
    (exitCode (runMain inp).2 = 0 →
      (runMain inp).1.filter isUpload = [] ∨
      ∃ a md, (runMain inp).1.filter isUpload =
        [Event.uploadCall BUCKET_NAME AUDIO_PATH "audio/mpeg" "true" (.bytes a),
         Event.uploadCall BUCKET_NAME DATA_PATH "application/json" "true" (.json md)] ∧
        inp.uploadAudioRes = .ok () ∧ inp.uploadMetaRes = .ok ()) := by
  refine ⟨?_, ?_, ?_, ?_, ?_, ?_, ?_, ?_⟩
  · rintro ⟨e, he⟩
    have heq : runMain inp = ([.fetchNews, errLog e], .abortedException) := by
      simp [runMain, he]
    rw [heq]
    exact ⟨rfl, "❌ Critical Error: " ++ e, by simp [errLog]⟩
  · rintro d hfd hs ⟨e, hb⟩
    have heq : runMain inp = ([.fetchNews, errLog e], .abortedException) := by
      simp [runMain, hfd, hs, hb]
    rw [heq]
    exact ⟨rfl, "❌ Critical Error: " ++ e, by simp [errLog]⟩
  · rintro ⟨d, L, hfd, hs, hb, hL⟩ ⟨e, hl⟩
    cases L with
    | nil => exact absurd rfl hL
    | cons x xs =>
      have heq : runMain inp = (evsLlm (x :: xs) ++ [errLog e], .abortedException) := by
        simp [runMain, hfd, hs, hb, hl]
      rw [heq]
      exact ⟨rfl, "❌ Critical Error: " ++ e, by simp [evsLlm, errLog]⟩
  · rintro ⟨d, L, hfd, hs, hb, hL⟩ ⟨e, hte⟩
    cases L with
    | nil => exact absurd rfl hL
    | cons x xs =>
      cases hl : inp.llm with
      | error e2 =>
        have heq : runMain inp = (evsLlm (x :: xs) ++ [errLog e2], .abortedException) := by
          simp [runMain, hfd, hs, hb, hl]
        rw [heq]
        exact ⟨rfl, "❌ Critical Error: " ++ e2, by simp [evsLlm, errLog]⟩
      | ok s =>
        have heq : runMain inp =
            (evsTts (x :: xs) s ++ [errLog e], .abortedException) := by
          simp [runMain, hfd, hs, hb, hl, hte]
        rw [heq]
        exact ⟨rfl, "❌ Critical Error: " ++ e, by simp [evsTts, evsLlm, errLog]⟩
  · rintro ⟨d, L, hfd, hs, hb, hL⟩ ⟨e, huae⟩
    cases L with
    | nil => exact absurd rfl hL
    | cons x xs =>
      cases hl : inp.llm with
      | error e2 =>
        have heq : runMain inp = (evsLlm (x :: xs) ++ [errLog e2], .abortedException) := by
          simp [runMain, hfd, hs, hb, hl]
        rw [heq]
        exact ⟨rfl, "❌ Critical Error: " ++ e2, by simp [evsLlm, errLog]⟩
      | ok s =>
        cases ht2 : inp.tts with
        | error e3 =>
          have heq : runMain inp =
              (evsTts (x :: xs) s ++ [errLog e3], .abortedException) := by
            simp [runMain, hfd, hs, hb, hl, ht2]
          rw [heq]
          exact ⟨rfl, "❌ Critical Error: " ++ e3, by simp [evsTts, evsLlm, errLog]⟩
        | ok a =>
          have heq : runMain inp =
              (evsAud (x :: xs) s a ++ [errLog e], .abortedException) := by
            simp [runMain, hfd, hs, hb, hl, ht2, huae]
          rw [heq]
          exact ⟨rfl, "❌ Critical Error: " ++ e,
            by simp [evsAud, evsTts, evsLlm, errLog]⟩
  · rintro ⟨d, L, hfd, hs, hb, hL⟩ ⟨e, hume⟩
    cases L with
    | nil => exact absurd rfl hL
    | cons x xs =>
      cases hl : inp.llm with
      | error e2 =>
        have heq : runMain inp = (evsLlm (x :: xs) ++ [errLog e2], .abortedException) := by
          simp [runMain, hfd, hs, hb, hl]
        rw [heq]
        exact ⟨rfl, "❌ Critical Error: " ++ e2, by simp [evsLlm, errLog]⟩
      | ok s =>
        cases ht2 : inp.tts with
        | error e3 =>
          have heq : runMain inp =
              (evsTts (x :: xs) s ++ [errLog e3], .abortedException) := by
            simp [runMain, hfd, hs, hb, hl, ht2]
          rw [heq]
          exact ⟨rfl, "❌ Critical Error: " ++ e3, by simp [evsTts, evsLlm, errLog]⟩
        | ok a =>
          cases hua2 : inp.uploadAudioRes with
          | error e4 =>
            have heq : runMain inp =
                (evsAud (x :: xs) s a ++ [errLog e4], .abortedException) := by
              simp [runMain, hfd, hs, hb, hl, ht2, hua2]
            rw [heq]
            exact ⟨rfl, "❌ Critical Error: " ++ e4,
              by simp [evsAud, evsTts, evsLlm, errLog]⟩
          | ok u =>
            cases u
            have heq : runMain inp =
                (evsMeta (x :: xs) s a inp.now ++ [errLog e], .abortedException) := by
              simp [runMain, hfd, hs, hb, hl, ht2, hua2, hume]
            rw [heq]
            exact ⟨rfl, "❌ Critical Error: " ++ e,
              by simp [evsMeta, evsAud, evsTts, evsLlm, errLog]⟩
  · rcases run_shape inp with
      ⟨e, hfe, heq⟩ | ⟨d2, hfd, hs2, heq⟩ | ⟨d2, e, hfd, hs2, hb2, heq⟩ |
      ⟨d2, hfd, hs2, hb2, heq⟩ |
      ⟨d2, L, e, hfd, hs2, hb2, hL, hl, heq⟩ |
      ⟨d2, L, s, e, hfd, hs2, hb2, hL, hl, ht2, heq⟩ |
      ⟨d2, L, s, a, e, hfd, hs2, hb2, hL, hl, ht2, hua, heq⟩ |
      ⟨d2, L, s, a, e, hfd, hs2, hb2, hL, hl, ht2, hua, hum, heq⟩ |
      ⟨d2, L, s, a, hfd, hs2, hb2, hL, hl, ht2, hua, hum, heq⟩ <;>
    rw [heq] <;>
    simp [evsMeta, evsAud, evsTts, evsLlm, errLog, isFetch, isLlm, isTts,
      isAudUpload, isJsonUpload]
  · intro h0
    rcases run_shape inp with
      ⟨e, hfe, heq⟩ | ⟨d2, hfd, hs2, heq⟩ | ⟨d2, e, hfd, hs2, hb2, heq⟩ |
      ⟨d2, hfd, hs2, hb2, heq⟩ |
      ⟨d2, L, e, hfd, hs2, hb2, hL, hl, heq⟩ |
      ⟨d2, L, s, e, hfd, hs2, hb2, hL, hl, ht2, heq⟩ |
      ⟨d2, L, s, a, e, hfd, hs2, hb2, hL, hl, ht2, hua, heq⟩ |
      ⟨d2, L, s, a, e, hfd, hs2, hb2, hL, hl, ht2, hua, hum, heq⟩ |
      ⟨d2, L, s, a, hfd, hs2, hb2, hL, hl, ht2, hua, hum, heq⟩
    · rw [heq] at h0; simp [exitCode] at h0
    · exact Or.inl (by rw [heq]; simp [isUpload])
    · rw [heq] at h0; simp [exitCode] at h0
    · exact Or.inl (by rw [heq]; simp [isUpload])
    · rw [heq] at h0; simp [exitCode] at h0
    · rw [heq] at h0; simp [exitCode] at h0
    · rw [heq] at h0; simp [exitCode] at h0
    · rw [heq] at h0; simp [exitCode] at h0
    · exact Or.inr ⟨a, mkMetadata inp.now s, by
        rw [heq]; simp [evsMeta, evsAud, evsTts, evsLlm, isUpload], hua, hum⟩

/-- C6 witness: a failed fetch is caught and exits 1 with a logged message. -/
theorem c6_witness :
    exitCode (runMain wInpFetchFail).2 = 1 ∧
    ∃ m, Event.logMsg m ∈ (runMain wInpFetchFail).1 :=
  (c6_errors_caught_exit_nonzero wInpFetchFail).1 ⟨"ConnectionError", rfl⟩

end NewsKernel
